import Mathlib

/-
Shallow embedding of the Observer-pattern YouTube notification system
(src/observer/subject.py, src/observer/observers.py, src/observer/interfaces.py,
mirrored verbatim in src/observer_pattern.py).

Python objects with no custom __eq__ compare by identity, so subscriber
handles are modelled as a structure carrying a unique identity tag `id`
together with the configuration string the concrete observer was built
from (the email address, username or phone number); the registry only
ever compares the `id` field, mirroring the identity-based `in` and
`remove` tests of the source.

The side effects of the source (the print calls and the calls to each
subscriber's update method) are modelled as an explicit event trace
returned next to the new state.
-/

set_option maxHeartbeats 1000000

namespace ObserverPattern

/-- A subscriber handle (an Observer object). `id` is the object identity
used by the membership and removal tests; `config` is the constructor
argument of the concrete observer (email, username or phone number),
irrelevant to the registry itself. -/
structure Observer where
  id : Nat
  config : String
deriving Repr, DecidableEq

/-- State of a YouTubeChannel: the fields set by YouTubeChannel.__init__
(channel name, ordered subscriber list, latest uploaded video title). -/
structure YouTubeChannel where
  channel_name : String
  subscribers : List Observer
  latest_video : String
deriving Repr, DecidableEq

/-- One observable side effect of the source: a confirmation print from
attach or detach, the banner print and the upload print, or an invocation
of one subscriber's update method. -/
inductive Event where
  | subscribed (obs : Observer) (channel : String)
  | unsubscribed (obs : Observer) (channel : String)
  | notifyBanner (count : Nat)
  | uploaded (channel : String) (title : String)
  | update (obs : Observer) (payload : String) (channel : String)
deriving Repr, DecidableEq

/-- The Python membership test observer in self._subscribers, which for
these classes is identity comparison. -/
def memberObs (obs : Observer) (l : List Observer) : Bool :=
  l.any (fun s => s.id == obs.id)

/-- YouTubeChannel.__init__: stores the channel name, an empty subscriber
list, and the empty string as latest video. -/
def mkChannel (channel_name : String) : YouTubeChannel :=
  { channel_name := channel_name, subscribers := [], latest_video := "" }

/-- YouTubeChannel.attach: if the observer is not already present, append
it and print a confirmation; otherwise do nothing. -/
def attach (c : YouTubeChannel) (obs : Observer) : YouTubeChannel × List Event :=
  if memberObs obs c.subscribers then (c, [])
  else ({ c with subscribers := c.subscribers ++ [obs] },
        [Event.subscribed obs c.channel_name])

/-- Python list.remove: delete the first element equal (here: identity
equal) to the argument, leaving the rest untouched. -/
def removeFirst (obs : Observer) : List Observer → List Observer
  | [] => []
  | s :: rest => if s.id == obs.id then rest else s :: removeFirst obs rest

/-- YouTubeChannel.detach: if the observer is present, remove it and print
a confirmation; otherwise do nothing. -/
def detach (c : YouTubeChannel) (obs : Observer) : YouTubeChannel × List Event :=
  if memberObs obs c.subscribers then
    ({ c with subscribers := removeFirst obs c.subscribers },
     [Event.unsubscribed obs c.channel_name])
  else (c, [])

/-- YouTubeChannel.notify: print the banner, then call update on every
subscriber in list order with the latest video and the channel name. -/
def notify (c : YouTubeChannel) : List Event :=
  Event.notifyBanner c.subscribers.length ::
    c.subscribers.map (fun s => Event.update s c.latest_video c.channel_name)

/-- YouTubeChannel.upload_video: print the upload line, overwrite the
latest video, then notify. -/
def upload_video (c : YouTubeChannel) (title : String) : YouTubeChannel × List Event :=
  let c2 : YouTubeChannel := { c with latest_video := title }
  (c2, Event.uploaded c.channel_name title :: notify c2)

/-- One registry operation, for reasoning about all reachable states. -/
inductive Op where
  | sub (o : Observer)
  | unsub (o : Observer)
  | pub (t : String)

/-- State transition of a single operation (events discarded). -/
def applyOp (c : YouTubeChannel) : Op → YouTubeChannel
  | Op.sub o => (attach c o).fst
  | Op.unsub o => (detach c o).fst
  | Op.pub t => (upload_video c t).fst

/-- Run a sequence of operations from a state. -/
def runOps (c : YouTubeChannel) (ops : List Op) : YouTubeChannel :=
  ops.foldl applyOp c

/-- Extract from an event trace the callback invocations, as triples of
observer identity, payload delivered, and channel name delivered. -/
def invocations : List Event → List (Nat × String × String)
  | [] => []
  | Event.update o p ch :: rest => (o.id, p, ch) :: invocations rest
  | _ :: rest => invocations rest

/-- The for-loop body of notify when a callback may raise: Python has no
try/except around subscriber.update, so the first failing callback is
invoked (and raises) and the loop is abandoned; the Bool records whether
an exception propagated out of the loop. -/
def notifyLoop (payload channel : String) (fails : Observer → Bool) :
    List Observer → List Event × Bool
  | [] => ([], false)
  | o :: rest =>
    if fails o then ([Event.update o payload channel], true)
    else
      let r := notifyLoop payload channel fails rest
      (Event.update o payload channel :: r.fst, r.snd)

/-- YouTubeChannel.notify under a failure model for the callbacks: banner
print, then the unprotected for loop. -/
def notifyF (c : YouTubeChannel) (fails : Observer → Bool) : List Event × Bool :=
  let r := notifyLoop c.latest_video c.channel_name fails c.subscribers
  (Event.notifyBanner c.subscribers.length :: r.fst, r.snd)

/-! Helper lemmas about membership, removal, and the event trace. -/

theorem memberObs_iff (o : Observer) (l : List Observer) :
    memberObs o l = true ↔ o.id ∈ l.map Observer.id := by
  simp [memberObs, List.any_eq_true, List.mem_map]

theorem memberObs_false_iff (o : Observer) (l : List Observer) :
    memberObs o l = false ↔ o.id ∉ l.map Observer.id := by
  rw [← memberObs_iff]
  cases memberObs o l <;> simp

theorem removeFirst_sublist (o : Observer) (l : List Observer) :
    List.Sublist (removeFirst o l) l := by
  induction l with
  | nil => simp [removeFirst]
  | cons s rest ih =>
    by_cases h : (s.id == o.id) = true
    · simp only [removeFirst, h, if_true]
      exact List.sublist_cons_self s rest
    · simpa [removeFirst, h] using List.Sublist.cons₂ s ih

theorem length_removeFirst (o : Observer) (l : List Observer)
    (h : memberObs o l = true) :
    (removeFirst o l).length + 1 = l.length := by
  induction l with
  | nil => simp [memberObs] at h
  | cons s rest ih =>
    by_cases hs : (s.id == o.id) = true
    · simp [removeFirst, hs]
    · have hm : memberObs o rest = true := by
        simp [memberObs] at h ⊢
        rcases h with h | h
        · exact absurd h (by simpa using hs)
        · exact h
      simp [removeFirst, hs, ih hm]

theorem removeFirst_eq_filter (o : Observer) (l : List Observer)
    (h : (l.map Observer.id).Nodup) :
    removeFirst o l = l.filter (fun s => ! (s.id == o.id)) := by
  induction l with
  | nil => rfl
  | cons s rest ih =>
    simp only [List.map_cons, List.nodup_cons] at h
    by_cases hs : (s.id == o.id) = true
    · have hso : s.id = o.id := by simpa using hs
      have hrest : rest.filter (fun s2 => ! (s2.id == o.id)) = rest := by
        apply List.filter_eq_self.mpr
        intro x hx
        simp only [Bool.not_eq_true']
        have hxid : x.id ∈ rest.map Observer.id := List.mem_map_of_mem _ hx
        by_contra hc
        have hxeq : x.id = o.id := by
          simpa using hc
        rw [hxeq, ← hso] at hxid
        exact h.1 hxid
      simp [removeFirst, hs, List.filter_cons, hrest]
    · simp [removeFirst, hs, List.filter_cons, ih h.2]

theorem memberObs_removeFirst (o : Observer) (l : List Observer)
    (h : (l.map Observer.id).Nodup) :
    memberObs o (removeFirst o l) = false := by
  rw [removeFirst_eq_filter o l h, memberObs_false_iff]
  intro hmem
  rcases List.mem_map.mp hmem with ⟨x, hx, hxid⟩
  rcases List.mem_filter.mp hx with ⟨hxl, hxp⟩
  simp only [Bool.not_eq_true'] at hxp
  rw [hxid] at hxp
  simp at hxp

theorem invocations_cons_banner (n : Nat) (rest : List Event) :
    invocations (Event.notifyBanner n :: rest) = invocations rest := rfl

theorem invocations_cons_uploaded (ch t : String) (rest : List Event) :
    invocations (Event.uploaded ch t :: rest) = invocations rest := rfl

theorem invocations_map_update (p ch : String) (l : List Observer) :
    invocations (l.map (fun s => Event.update s p ch)) =
      l.map (fun s => (s.id, p, ch)) := by
  induction l with
  | nil => rfl
  | cons s rest ih => simp [invocations, ih]

theorem invocations_notify (c : YouTubeChannel) :
    invocations (notify c) =
      c.subscribers.map (fun s => (s.id, c.latest_video, c.channel_name)) := by
  unfold notify
  rw [invocations_cons_banner]
  exact invocations_map_update _ _ _

theorem invocations_upload (c : YouTubeChannel) (t : String) :
    invocations (upload_video c t).snd =
      c.subscribers.map (fun s => (s.id, t, c.channel_name)) := by
  unfold upload_video
  rw [invocations_cons_uploaded, invocations_notify]

/-! Frame lemmas: what each operation leaves unchanged. -/

theorem channel_name_attach (c : YouTubeChannel) (o : Observer) :
    (attach c o).fst.channel_name = c.channel_name := by
  unfold attach
  by_cases h : memberObs o c.subscribers = true <;> simp [h]

theorem channel_name_detach (c : YouTubeChannel) (o : Observer) :
    (detach c o).fst.channel_name = c.channel_name := by
  unfold detach
  by_cases h : memberObs o c.subscribers = true <;> simp [h]

theorem channel_name_upload (c : YouTubeChannel) (t : String) :
    (upload_video c t).fst.channel_name = c.channel_name := rfl

theorem latest_video_attach (c : YouTubeChannel) (o : Observer) :
    (attach c o).fst.latest_video = c.latest_video := by
  unfold attach
  by_cases h : memberObs o c.subscribers = true <;> simp [h]

theorem latest_video_detach (c : YouTubeChannel) (o : Observer) :
    (detach c o).fst.latest_video = c.latest_video := by
  unfold detach
  by_cases h : memberObs o c.subscribers = true <;> simp [h]

theorem subscribers_upload (c : YouTubeChannel) (t : String) :
    (upload_video c t).fst.subscribers = c.subscribers := rfl

theorem channel_name_applyOp (c : YouTubeChannel) (op : Op) :
    (applyOp c op).channel_name = c.channel_name := by
  cases op with
  | sub o => exact channel_name_attach c o
  | unsub o => exact channel_name_detach c o
  | pub t => exact channel_name_upload c t

theorem channel_name_runOps (c : YouTubeChannel) (ops : List Op) :
    (runOps c ops).channel_name = c.channel_name := by
  induction ops generalizing c with
  | nil => rfl
  | cons op rest ih =>
    show (runOps (applyOp c op) rest).channel_name = c.channel_name
    rw [ih, channel_name_applyOp]

/-! The no-duplicates invariant on the subscriber list. -/

theorem nodup_attach (c : YouTubeChannel) (o : Observer)
    (h : (c.subscribers.map Observer.id).Nodup) :
    (((attach c o).fst.subscribers).map Observer.id).Nodup := by
  unfold attach
  by_cases hm : memberObs o c.subscribers = true
  · simpa [hm] using h
  · have hm2 : memberObs o c.subscribers = false := by
      cases hx : memberObs o c.subscribers
      · rfl
      · exact absurd hx hm
    have hno : o.id ∉ c.subscribers.map Observer.id :=
      (memberObs_false_iff o c.subscribers).mp hm2
    simp only [hm2, Bool.false_eq_true, if_false, List.map_append, List.map_cons,
      List.map_nil]
    exact List.Nodup.append h (List.nodup_singleton o.id)
      (by intro a ha hb
          simp only [List.mem_singleton] at hb
          rw [hb] at ha
          exact hno ha)

theorem nodup_detach (c : YouTubeChannel) (o : Observer)
    (h : (c.subscribers.map Observer.id).Nodup) :
    (((detach c o).fst.subscribers).map Observer.id).Nodup := by
  unfold detach
  by_cases hm : memberObs o c.subscribers = true
  · simp only [hm, if_true]
    exact ((removeFirst_sublist o c.subscribers).map Observer.id).nodup h
  · simpa [hm] using h

theorem nodup_applyOp (c : YouTubeChannel) (op : Op)
    (h : (c.subscribers.map Observer.id).Nodup) :
    (((applyOp c op).subscribers).map Observer.id).Nodup := by
  cases op with
  | sub o => exact nodup_attach c o h
  | unsub o => exact nodup_detach c o h
  | pub t => exact h

theorem nodup_runOps (c : YouTubeChannel) (ops : List Op)
    (h : (c.subscribers.map Observer.id).Nodup) :
    (((runOps c ops).subscribers).map Observer.id).Nodup := by
  induction ops generalizing c with
  | nil => exact h
  | cons op rest ih =>
    show (((runOps (applyOp c op) rest).subscribers).map Observer.id).Nodup
    exact ih _ (nodup_applyOp c op h)

theorem filter_invocations_nodup (l : List Observer) (i : Nat) (p ch : String)
    (h : (l.map Observer.id).Nodup) :
    (l.map (fun s => ((s.id : Nat), p, ch))).filter (fun t => t.fst == i) =
      (if i ∈ l.map Observer.id then [(i, p, ch)] else []) := by
  induction l with
  | nil => simp
  | cons s rest ih =>
    simp only [List.map_cons, List.nodup_cons] at h
    by_cases hs : s.id = i
    · subst hs
      have hrest : (rest.map (fun s2 => ((s2.id : Nat), p, ch))).filter
          (fun t => t.fst == s.id) = [] := by
        rw [ih h.2]
        simp [h.1]
      simp [List.filter_cons, hrest]
    · have hne : (((s.id : Nat), p, ch).fst == i) = false := by
        simp [hs]
      have his : ¬ i = s.id := fun h2 => hs h2.symm
      simp [List.filter_cons, hne, ih h.2, hs, his]

theorem mem_invocations_of_member (o : Observer) (l : List Observer) (p ch : String)
    (hm : memberObs o l = true) :
    (o.id, p, ch) ∈ l.map (fun s => ((s.id : Nat), p, ch)) := by
  have hmem := (memberObs_iff o l).mp hm
  rcases List.mem_map.mp hmem with ⟨s, hs, hsid⟩
  exact List.mem_map.mpr ⟨s, hs, by rw [hsid]⟩

/-- C1: upload_video(X) first overwrites the latest video with X and only
then notifies, so the trace is the upload print followed by notify of the
updated state; provided the subscriber list has no duplicate identities
(the registry invariant), every subscribed handle receives exactly one
invocation, carrying payload X and the channel name, and a handle not in
the subscriber list receives none. -/
theorem publish_sets_state_then_delivers_once (c : YouTubeChannel) (X : String)
    (obs : Observer) (h : (c.subscribers.map Observer.id).Nodup) :
    (upload_video c X).fst.latest_video = X ∧
    (upload_video c X).snd =
      Event.uploaded c.channel_name X :: notify (upload_video c X).fst ∧
    (invocations (upload_video c X).snd).filter (fun t => t.fst == obs.id) =
      (if memberObs obs c.subscribers then [(obs.id, X, c.channel_name)] else []) := by
  refine ⟨rfl, rfl, ?_⟩
  rw [invocations_upload, filter_invocations_nodup _ _ _ _ h]
  by_cases hm : memberObs obs c.subscribers = true
  · rw [if_pos ((memberObs_iff obs c.subscribers).mp hm)]
    simp [hm]
  · have hm2 : memberObs obs c.subscribers = false := by
      cases hx : memberObs obs c.subscribers
      · rfl
      · exact absurd hx hm
    rw [if_neg ((memberObs_false_iff obs c.subscribers).mp hm2)]
    simp [hm2]

/-- Closed instance of publish_sets_state_then_delivers_once on the demo
channel with two subscribers. -/
theorem publish_sets_state_then_delivers_once_witness :
    ((((YouTubeChannel.mk "TechMaster"
        [Observer.mk 0 "alice@example.com", Observer.mk 1 "bob_dev"] "").subscribers).map
          Observer.id).Nodup) ∧
    ((upload_video (YouTubeChannel.mk "TechMaster"
        [Observer.mk 0 "alice@example.com", Observer.mk 1 "bob_dev"] "")
        "Python Design Patterns Tutorial").fst.latest_video =
      "Python Design Patterns Tutorial" ∧
    (upload_video (YouTubeChannel.mk "TechMaster"
        [Observer.mk 0 "alice@example.com", Observer.mk 1 "bob_dev"] "")
        "Python Design Patterns Tutorial").snd =
      Event.uploaded "TechMaster" "Python Design Patterns Tutorial" ::
        notify (upload_video (YouTubeChannel.mk "TechMaster"
          [Observer.mk 0 "alice@example.com", Observer.mk 1 "bob_dev"] "")
          "Python Design Patterns Tutorial").fst ∧
    (invocations (upload_video (YouTubeChannel.mk "TechMaster"
        [Observer.mk 0 "alice@example.com", Observer.mk 1 "bob_dev"] "")
        "Python Design Patterns Tutorial").snd).filter
        (fun t => t.fst == (Observer.mk 0 "alice@example.com").id) =
      (if memberObs (Observer.mk 0 "alice@example.com")
          (YouTubeChannel.mk "TechMaster"
            [Observer.mk 0 "alice@example.com", Observer.mk 1 "bob_dev"] "").subscribers
        then [((Observer.mk 0 "alice@example.com").id,
               "Python Design Patterns Tutorial", "TechMaster")] else [])) :=
  ⟨by decide,
   publish_sets_state_then_delivers_once _ _ (Observer.mk 0 "alice@example.com")
     (by decide)⟩

/-- C2: from a freshly constructed channel, no operation sequence ever
produces two identity-equal subscriber entries, and attaching an already
present observer returns the state unchanged with no events, hence also an
unchanged notification. -/
theorem subscribe_nodup_invariant_and_idempotent (name : String) (ops : List Op)
    (c : YouTubeChannel) (o : Observer)
    (hm : memberObs o c.subscribers = true) :
    (((runOps (mkChannel name) ops).subscribers).map Observer.id).Nodup ∧
    attach c o = (c, []) ∧
    notify (attach c o).fst = notify c := by
  have hatt : attach c o = (c, []) := by
    simp [attach, hm]
  refine ⟨nodup_runOps _ _ (by simp [mkChannel]), hatt, by rw [hatt]⟩

/-- Closed instance of subscribe_nodup_invariant_and_idempotent. -/
theorem subscribe_nodup_invariant_and_idempotent_witness :
    (memberObs (Observer.mk 0 "alice@example.com")
      (YouTubeChannel.mk "TechMaster" [Observer.mk 0 "alice@example.com"] "").subscribers
        = true) ∧
    ((((runOps (mkChannel "TechMaster")
        [Op.sub (Observer.mk 0 "alice@example.com"),
         Op.sub (Observer.mk 0 "alice@example.com")]).subscribers).map
          Observer.id).Nodup ∧
    attach (YouTubeChannel.mk "TechMaster" [Observer.mk 0 "alice@example.com"] "")
        (Observer.mk 0 "alice@example.com") =
      (YouTubeChannel.mk "TechMaster" [Observer.mk 0 "alice@example.com"] "", []) ∧
    notify (attach (YouTubeChannel.mk "TechMaster"
        [Observer.mk 0 "alice@example.com"] "")
        (Observer.mk 0 "alice@example.com")).fst =
      notify (YouTubeChannel.mk "TechMaster" [Observer.mk 0 "alice@example.com"] "")) :=
  ⟨by decide,
   subscribe_nodup_invariant_and_idempotent "TechMaster"
     [Op.sub (Observer.mk 0 "alice@example.com"),
      Op.sub (Observer.mk 0 "alice@example.com")] _ _ (by decide)⟩

/-- C3: notify invokes the callbacks exactly in subscriber-list (insertion)
order, and two consecutive publishes with nothing in between deliver to the
same identities in the same order. -/
theorem notify_order_is_subscription_order (c : YouTubeChannel) (X Y : String) :
    invocations (notify c) =
      c.subscribers.map (fun s => ((s.id : Nat), c.latest_video, c.channel_name)) ∧
    (invocations (upload_video (upload_video c X).fst Y).snd).map Prod.fst =
      (invocations (upload_video c X).snd).map Prod.fst := by
  refine ⟨invocations_notify c, ?_⟩
  rw [invocations_upload, invocations_upload, subscribers_upload, channel_name_upload]
  simp [List.map_map, Function.comp]

/-- Closed instance of notify_order_is_subscription_order on the demo
channel. -/
theorem notify_order_is_subscription_order_witness :
    invocations (notify (YouTubeChannel.mk "TechMaster"
        [Observer.mk 0 "alice@example.com", Observer.mk 1 "bob_dev"] "v")) =
      ((YouTubeChannel.mk "TechMaster"
        [Observer.mk 0 "alice@example.com", Observer.mk 1 "bob_dev"] "v").subscribers).map
        (fun s => ((s.id : Nat), "v", "TechMaster")) ∧
    (invocations (upload_video (upload_video (YouTubeChannel.mk "TechMaster"
        [Observer.mk 0 "alice@example.com", Observer.mk 1 "bob_dev"] "v") "a").fst
        "b").snd).map Prod.fst =
      (invocations (upload_video (YouTubeChannel.mk "TechMaster"
        [Observer.mk 0 "alice@example.com", Observer.mk 1 "bob_dev"] "v") "a").snd).map
        Prod.fst :=
  notify_order_is_subscription_order _ "a" "b"

theorem notifyLoop_append_fail (p ch : String) (fails : Observer → Bool)
    (pre post : List Observer) (f : Observer)
    (hpre : ∀ o ∈ pre, fails o = false) (hf : fails f = true) :
    notifyLoop p ch fails (pre ++ f :: post) =
      ((pre ++ [f]).map (fun o => Event.update o p ch), true) := by
  induction pre with
  | nil => simp [notifyLoop, hf]
  | cons o rest ih =>
    have ho : fails o = false := hpre o (List.mem_cons_self o rest)
    have ih2 := ih (fun x hx => hpre x (List.mem_cons_of_mem o hx))
    simp [notifyLoop, ho, ih2]

/-- C4 is false on the code: the for loop of notify has no exception
handling, so a raising callback aborts the fan-out. Amended claim: when a
callback fails, every subscriber before the first failing one and the
failing one itself are invoked, every subscriber after it receives no
invocation, and the exception propagates out of notify. -/
theorem notify_aborts_at_first_failing_callback (c : YouTubeChannel)
    (fails : Observer → Bool) (pre post : List Observer) (f : Observer)
    (hsubs : c.subscribers = pre ++ f :: post)
    (hpre : ∀ o ∈ pre, fails o = false) (hf : fails f = true) :
    notifyF c fails =
      (Event.notifyBanner c.subscribers.length ::
        (pre ++ [f]).map (fun o => Event.update o c.latest_video c.channel_name),
       true) := by
  unfold notifyF
  rw [hsubs, notifyLoop_append_fail _ _ _ _ _ _ hpre hf]

/-- The claim as stated fails at a concrete input: with subscribers a then
b and a raising callback for a, b is never invoked. -/
theorem notify_short_circuit_counterexample :
    notifyF (YouTubeChannel.mk "ch"
        [Observer.mk 0 "a@x", Observer.mk 1 "b@x"] "v")
        (fun o => o.id == 0) =
      ([Event.notifyBanner 2, Event.update (Observer.mk 0 "a@x") "v" "ch"], true) ∧
    Event.update (Observer.mk 1 "b@x") "v" "ch" ∉
      (notifyF (YouTubeChannel.mk "ch"
        [Observer.mk 0 "a@x", Observer.mk 1 "b@x"] "v")
        (fun o => o.id == 0)).fst := by
  refine ⟨rfl, ?_⟩
  decide

/-- Closed instance of notify_aborts_at_first_failing_callback: the second
of three subscribers fails, the third is not invoked. -/
theorem notify_aborts_at_first_failing_callback_witness :
    ((YouTubeChannel.mk "ch"
        [Observer.mk 0 "a@x", Observer.mk 1 "b@x", Observer.mk 2 "c@x"] "v").subscribers
      = [Observer.mk 0 "a@x"] ++ Observer.mk 1 "b@x" :: [Observer.mk 2 "c@x"]) ∧
    (∀ o ∈ [Observer.mk 0 "a@x"], (fun o2 : Observer => o2.id == 1) o = false) ∧
    ((fun o2 : Observer => o2.id == 1) (Observer.mk 1 "b@x") = true) ∧
    notifyF (YouTubeChannel.mk "ch"
        [Observer.mk 0 "a@x", Observer.mk 1 "b@x", Observer.mk 2 "c@x"] "v")
        (fun o2 => o2.id == 1) =
      (Event.notifyBanner (YouTubeChannel.mk "ch"
          [Observer.mk 0 "a@x", Observer.mk 1 "b@x", Observer.mk 2 "c@x"] "v").subscribers.length ::
        ([Observer.mk 0 "a@x"] ++ [Observer.mk 1 "b@x"]).map
          (fun o => Event.update o "v" "ch"),
       true) :=
  ⟨by decide, by decide, by decide,
   notify_aborts_at_first_failing_callback _ _ [Observer.mk 0 "a@x"]
     [Observer.mk 2 "c@x"] (Observer.mk 1 "b@x") (by decide) (by decide) (by decide)⟩

theorem detach_absent (c : YouTubeChannel) (o : Observer)
    (hm : memberObs o c.subscribers = false) : detach c o = (c, []) := by
  simp [detach, hm]

/-- C5: detach removes a present handle (after which, under the registry
invariant, it is no longer a member), is a silent no-op on an absent
handle, and detaching twice ends in the same state as detaching once. -/
theorem unsubscribe_removes_iff_present_and_idempotent (c : YouTubeChannel)
    (o : Observer) (h : (c.subscribers.map Observer.id).Nodup) :
    (memberObs o c.subscribers = false → detach c o = (c, [])) ∧
    (memberObs o c.subscribers = true →
      memberObs o (detach c o).fst.subscribers = false) ∧
    (detach (detach c o).fst o).fst = (detach c o).fst := by
  have habsent : memberObs o c.subscribers = false → detach c o = (c, []) := by
    intro hm
    simp [detach, hm]
  have hgone : memberObs o c.subscribers = true →
      memberObs o (detach c o).fst.subscribers = false := by
    intro hm
    simp only [detach, hm, if_true]
    exact memberObs_removeFirst o c.subscribers h
  refine ⟨habsent, hgone, ?_⟩
  by_cases hm : memberObs o c.subscribers = true
  · have h2 := hgone hm
    rw [detach_absent _ o h2]
  · have hm2 : memberObs o c.subscribers = false := by
      cases hx : memberObs o c.subscribers
      · rfl
      · exact absurd hx hm
    have h3 := habsent hm2
    rw [h3]
    show (detach c o).fst = c
    rw [h3]

/-- Closed instance of unsubscribe_removes_iff_present_and_idempotent. -/
theorem unsubscribe_removes_iff_present_and_idempotent_witness :
    ((((YouTubeChannel.mk "TechMaster"
        [Observer.mk 0 "alice@example.com", Observer.mk 1 "bob_dev"] "").subscribers).map
          Observer.id).Nodup) ∧
    ((memberObs (Observer.mk 1 "bob_dev")
        (YouTubeChannel.mk "TechMaster"
          [Observer.mk 0 "alice@example.com", Observer.mk 1 "bob_dev"] "").subscribers
          = false →
      detach (YouTubeChannel.mk "TechMaster"
          [Observer.mk 0 "alice@example.com", Observer.mk 1 "bob_dev"] "")
          (Observer.mk 1 "bob_dev") =
        (YouTubeChannel.mk "TechMaster"
          [Observer.mk 0 "alice@example.com", Observer.mk 1 "bob_dev"] "", [])) ∧
    (memberObs (Observer.mk 1 "bob_dev")
        (YouTubeChannel.mk "TechMaster"
          [Observer.mk 0 "alice@example.com", Observer.mk 1 "bob_dev"] "").subscribers
          = true →
      memberObs (Observer.mk 1 "bob_dev")
        (detach (YouTubeChannel.mk "TechMaster"
          [Observer.mk 0 "alice@example.com", Observer.mk 1 "bob_dev"] "")
          (Observer.mk 1 "bob_dev")).fst.subscribers = false) ∧
    (detach (detach (YouTubeChannel.mk "TechMaster"
        [Observer.mk 0 "alice@example.com", Observer.mk 1 "bob_dev"] "")
        (Observer.mk 1 "bob_dev")).fst (Observer.mk 1 "bob_dev")).fst =
      (detach (YouTubeChannel.mk "TechMaster"
        [Observer.mk 0 "alice@example.com", Observer.mk 1 "bob_dev"] "")
        (Observer.mk 1 "bob_dev")).fst) :=
  ⟨by decide,
   unsubscribe_removes_iff_present_and_idempotent _ (Observer.mk 1 "bob_dev")
     (by decide)⟩

theorem latest_video_runOps_subs (c : YouTubeChannel) (os : List Observer) :
    (runOps c (os.map Op.sub)).latest_video = c.latest_video := by
  induction os generalizing c with
  | nil => rfl
  | cons o rest ih =>
    show (runOps (applyOp c (Op.sub o)) (rest.map Op.sub)).latest_video = c.latest_video
    rw [ih]
    exact latest_video_attach c o

/-- C6: every modelled operation is a total function of its inputs, the
constructor initializes the latest video to the empty string, and notify
called after any number of subscribes but before any publish fans the
empty payload out to every subscriber instead of erroring. -/
theorem operations_total_and_empty_initial_state (name : String)
    (os : List Observer) :
    (mkChannel name).latest_video = "" ∧
    (runOps (mkChannel name) (os.map Op.sub)).latest_video = "" ∧
    invocations (notify (runOps (mkChannel name) (os.map Op.sub))) =
      ((runOps (mkChannel name) (os.map Op.sub)).subscribers).map
        (fun s => ((s.id : Nat), "", name)) := by
  refine ⟨rfl, ?_, ?_⟩
  · rw [latest_video_runOps_subs]
    rfl
  · rw [invocations_notify, latest_video_runOps_subs, channel_name_runOps]
    rfl

/-- Closed instance of operations_total_and_empty_initial_state with two
subscribers and no publish. -/
theorem operations_total_and_empty_initial_state_witness :
    (mkChannel "TechMaster").latest_video = "" ∧
    (runOps (mkChannel "TechMaster")
      ([Observer.mk 0 "alice@example.com", Observer.mk 1 "bob_dev"].map Op.sub)).latest_video
        = "" ∧
    invocations (notify (runOps (mkChannel "TechMaster")
        ([Observer.mk 0 "alice@example.com", Observer.mk 1 "bob_dev"].map Op.sub))) =
      ((runOps (mkChannel "TechMaster")
        ([Observer.mk 0 "alice@example.com", Observer.mk 1 "bob_dev"].map Op.sub)).subscribers).map
        (fun s => ((s.id : Nat), "", "TechMaster")) :=
  operations_total_and_empty_initial_state "TechMaster"
    [Observer.mk 0 "alice@example.com", Observer.mk 1 "bob_dev"]

/-- C7: the channel name returned by the accessor is exactly the one given
at construction, whatever operations ran in between; attach and detach do
not touch the latest video, and upload_video does not touch the subscriber
list. -/
theorem identity_immutable_and_frame_conditions (name : String) (ops : List Op)
    (c : YouTubeChannel) (o : Observer) (t : String) :
    (runOps (mkChannel name) ops).channel_name = name ∧
    (attach c o).fst.latest_video = c.latest_video ∧
    (detach c o).fst.latest_video = c.latest_video ∧
    (upload_video c t).fst.subscribers = c.subscribers ∧
    (runOps c ops).channel_name = c.channel_name :=
  ⟨by rw [channel_name_runOps]; rfl, latest_video_attach c o, latest_video_detach c o,
   subscribers_upload c t, channel_name_runOps c ops⟩

/-- Closed instance of identity_immutable_and_frame_conditions on the demo
scenario prefix. -/
theorem identity_immutable_and_frame_conditions_witness :
    (runOps (mkChannel "TechMaster")
      [Op.sub (Observer.mk 0 "alice@example.com"),
       Op.pub "Python Design Patterns Tutorial",
       Op.unsub (Observer.mk 0 "alice@example.com")]).channel_name = "TechMaster" ∧
    (attach (YouTubeChannel.mk "TechMaster" [] "v")
      (Observer.mk 0 "alice@example.com")).fst.latest_video =
        (YouTubeChannel.mk "TechMaster" [] "v").latest_video ∧
    (detach (YouTubeChannel.mk "TechMaster" [] "v")
      (Observer.mk 0 "alice@example.com")).fst.latest_video =
        (YouTubeChannel.mk "TechMaster" [] "v").latest_video ∧
    (upload_video (YouTubeChannel.mk "TechMaster" [] "v") "t").fst.subscribers =
      (YouTubeChannel.mk "TechMaster" [] "v").subscribers ∧
    (runOps (YouTubeChannel.mk "TechMaster" [] "v")
      [Op.sub (Observer.mk 0 "alice@example.com"),
       Op.pub "Python Design Patterns Tutorial",
       Op.unsub (Observer.mk 0 "alice@example.com")]).channel_name =
      (YouTubeChannel.mk "TechMaster" [] "v").channel_name :=
  identity_immutable_and_frame_conditions "TechMaster" _ _
    (Observer.mk 0 "alice@example.com") "t"

/-- C8: attach prints its confirmation exactly when it actually appends
(and then the trace is exactly the one subscription confirmation), and
detach prints its confirmation exactly when it actually removes. -/
theorem confirmation_event_iff_mutation (c : YouTubeChannel) (o : Observer) :
    ((attach c o).snd ≠ [] ↔ (attach c o).fst.subscribers ≠ c.subscribers) ∧
    ((detach c o).snd ≠ [] ↔ (detach c o).fst.subscribers ≠ c.subscribers) ∧
    ((attach c o).snd ≠ [] → (attach c o).snd = [Event.subscribed o c.channel_name]) ∧
    ((detach c o).snd ≠ [] → (detach c o).snd = [Event.unsubscribed o c.channel_name]) := by
  by_cases hm : memberObs o c.subscribers = true
  · have hatt : attach c o = (c, []) := by
      simp [attach, hm]
    have hlen := length_removeFirst o c.subscribers hm
    have hdet : (detach c o).snd = [Event.unsubscribed o c.channel_name] := by
      simp [detach, hm]
    have hsubs : (detach c o).fst.subscribers = removeFirst o c.subscribers := by
      simp [detach, hm]
    refine ⟨?_, ?_, ?_, ?_⟩
    · rw [hatt]
      simp
    · rw [hdet, hsubs]
      simp only [ne_eq]
      constructor
      · intro _ hc
        rw [hc] at hlen
        omega
      · intro _ hc
        exact List.cons_ne_nil _ _ hc
    · rw [hatt]
      intro hc
      exact absurd rfl hc
    · intro _
      exact hdet
  · have hm2 : memberObs o c.subscribers = false := by
      cases hx : memberObs o c.subscribers
      · rfl
      · exact absurd hx hm
    have hatt : (attach c o).snd = [Event.subscribed o c.channel_name] := by
      simp [attach, hm2]
    have hsubs : (attach c o).fst.subscribers = c.subscribers ++ [o] := by
      simp [attach, hm2]
    have hdet := detach_absent c o hm2
    refine ⟨?_, ?_, ?_, ?_⟩
    · rw [hatt, hsubs]
      simp only [ne_eq]
      constructor
      · intro _ hc
        have := congrArg List.length hc
        simp at this
      · intro _ hc
        exact List.cons_ne_nil _ _ hc
    · rw [hdet]
      simp
    · intro _
      exact hatt
    · rw [hdet]
      intro hc
      exact absurd rfl hc

/-- Closed instance of confirmation_event_iff_mutation. -/
theorem confirmation_event_iff_mutation_witness :
    ((attach (YouTubeChannel.mk "TechMaster" [Observer.mk 0 "x"] "")
        (Observer.mk 1 "y")).snd ≠ [] ↔
      (attach (YouTubeChannel.mk "TechMaster" [Observer.mk 0 "x"] "")
        (Observer.mk 1 "y")).fst.subscribers ≠
        (YouTubeChannel.mk "TechMaster" [Observer.mk 0 "x"] "").subscribers) ∧
    ((detach (YouTubeChannel.mk "TechMaster" [Observer.mk 0 "x"] "")
        (Observer.mk 1 "y")).snd ≠ [] ↔
      (detach (YouTubeChannel.mk "TechMaster" [Observer.mk 0 "x"] "")
        (Observer.mk 1 "y")).fst.subscribers ≠
        (YouTubeChannel.mk "TechMaster" [Observer.mk 0 "x"] "").subscribers) ∧
    ((attach (YouTubeChannel.mk "TechMaster" [Observer.mk 0 "x"] "")
        (Observer.mk 1 "y")).snd ≠ [] →
      (attach (YouTubeChannel.mk "TechMaster" [Observer.mk 0 "x"] "")
        (Observer.mk 1 "y")).snd = [Event.subscribed (Observer.mk 1 "y") "TechMaster"]) ∧
    ((detach (YouTubeChannel.mk "TechMaster" [Observer.mk 0 "x"] "")
        (Observer.mk 1 "y")).snd ≠ [] →
      (detach (YouTubeChannel.mk "TechMaster" [Observer.mk 0 "x"] "")
        (Observer.mk 1 "y")).snd = [Event.unsubscribed (Observer.mk 1 "y") "TechMaster"]) :=
  confirmation_event_iff_mutation _ (Observer.mk 1 "y")

theorem memberObs_append (o : Observer) (l1 l2 : List Observer) :
    memberObs o (l1 ++ l2) = (memberObs o l1 || memberObs o l2) := by
  simp [memberObs, List.any_append]

theorem attach_not_member (c : YouTubeChannel) (o : Observer)
    (hm : memberObs o c.subscribers = false) :
    attach c o = ({ c with subscribers := c.subscribers ++ [o] },
                  [Event.subscribed o c.channel_name]) := by
  simp [attach, hm]

/-- C9: two handles with the same configuration string but distinct
identities, neither already subscribed, end up as two separate entries of
the subscriber list, and a publish then delivers one invocation to each of
the two identities. -/
theorem distinct_handles_with_equal_config_both_subscribe (c : YouTubeChannel)
    (a b : Observer) (X : String) (hconf : a.config = b.config)
    (hid : a.id ≠ b.id)
    (ha : memberObs a c.subscribers = false)
    (hb : memberObs b c.subscribers = false) :
    ((attach (attach c a).fst b).fst).subscribers = c.subscribers ++ [a, b] ∧
    (a.id, X, c.channel_name) ∈
      invocations (upload_video ((attach (attach c a).fst b).fst) X).snd ∧
    (b.id, X, c.channel_name) ∈
      invocations (upload_video ((attach (attach c a).fst b).fst) X).snd := by
  have h1 : (attach c a).fst.subscribers = c.subscribers ++ [a] := by
    simp [attach, ha]
  have hname1 : (attach c a).fst.channel_name = c.channel_name :=
    channel_name_attach c a
  have hb2 : memberObs b (attach c a).fst.subscribers = false := by
    rw [h1, memberObs_append, hb]
    simp [memberObs, fun h2 : a.id = b.id => hid h2]
  have h2 : ((attach (attach c a).fst b).fst).subscribers =
      c.subscribers ++ [a, b] := by
    rw [attach_not_member _ b hb2]
    show (attach c a).fst.subscribers ++ [b] = c.subscribers ++ [a, b]
    rw [h1, List.append_assoc]
    rfl
  have hname2 : ((attach (attach c a).fst b).fst).channel_name = c.channel_name := by
    rw [channel_name_attach, hname1]
  have hinv : invocations (upload_video ((attach (attach c a).fst b).fst) X).snd =
      (c.subscribers ++ [a, b]).map (fun s => ((s.id : Nat), X, c.channel_name)) := by
    rw [invocations_upload, h2, hname2]
  refine ⟨h2, ?_, ?_⟩
  · rw [hinv]
    apply mem_invocations_of_member
    rw [memberObs_append]
    simp [memberObs]
  · rw [hinv]
    apply mem_invocations_of_member
    rw [memberObs_append]
    simp [memberObs]

/-- Closed instance of distinct_handles_with_equal_config_both_subscribe:
two EmailSubscriber handles built from the same address. -/
theorem distinct_handles_with_equal_config_both_subscribe_witness :
    ((Observer.mk 0 "alice@example.com").config =
      (Observer.mk 1 "alice@example.com").config) ∧
    ((Observer.mk 0 "alice@example.com").id ≠
      (Observer.mk 1 "alice@example.com").id) ∧
    (memberObs (Observer.mk 0 "alice@example.com")
      (mkChannel "TechMaster").subscribers = false) ∧
    (memberObs (Observer.mk 1 "alice@example.com")
      (mkChannel "TechMaster").subscribers = false) ∧
    (((attach (attach (mkChannel "TechMaster") (Observer.mk 0 "alice@example.com")).fst
        (Observer.mk 1 "alice@example.com")).fst).subscribers =
      (mkChannel "TechMaster").subscribers ++
        [Observer.mk 0 "alice@example.com", Observer.mk 1 "alice@example.com"] ∧
    ((Observer.mk 0 "alice@example.com").id, "v", (mkChannel "TechMaster").channel_name) ∈
      invocations (upload_video ((attach (attach (mkChannel "TechMaster")
        (Observer.mk 0 "alice@example.com")).fst
        (Observer.mk 1 "alice@example.com")).fst) "v").snd ∧
    ((Observer.mk 1 "alice@example.com").id, "v", (mkChannel "TechMaster").channel_name) ∈
      invocations (upload_video ((attach (attach (mkChannel "TechMaster")
        (Observer.mk 0 "alice@example.com")).fst
        (Observer.mk 1 "alice@example.com")).fst) "v").snd) :=
  ⟨rfl, by decide, by decide, by decide,
   distinct_handles_with_equal_config_both_subscribe _ _ _ "v" rfl (by decide)
     (by decide) (by decide)⟩

/-- C10: removing a present handle shrinks the subscriber list by exactly
one, the remaining subscribers keep their relative order (the result is
the original list filtered at that identity), and the next publish
notifies exactly the remaining subscribers in that order. -/
theorem detach_decrements_and_preserves_order (c : YouTubeChannel)
    (o : Observer) (X : String) (hm : memberObs o c.subscribers = true)
    (h : (c.subscribers.map Observer.id).Nodup) :
    (detach c o).fst.subscribers.length + 1 = c.subscribers.length ∧
    (detach c o).fst.subscribers =
      c.subscribers.filter (fun s => ! (s.id == o.id)) ∧
    invocations (upload_video (detach c o).fst X).snd =
      ((detach c o).fst.subscribers).map (fun s => ((s.id : Nat), X, c.channel_name)) := by
  have hsubs : (detach c o).fst.subscribers = removeFirst o c.subscribers := by
    simp [detach, hm]
  refine ⟨?_, ?_, ?_⟩
  · rw [hsubs]
    exact length_removeFirst o _ hm
  · rw [hsubs]
    exact removeFirst_eq_filter o _ h
  · rw [invocations_upload, channel_name_detach]

/-- Closed instance of detach_decrements_and_preserves_order: detaching
the middle of three subscribers. -/
theorem detach_decrements_and_preserves_order_witness :
    (memberObs (Observer.mk 1 "bob_dev")
      (YouTubeChannel.mk "TechMaster"
        [Observer.mk 0 "alice@example.com", Observer.mk 1 "bob_dev",
         Observer.mk 2 "+7-777-123-4567"] "").subscribers = true) ∧
    ((((YouTubeChannel.mk "TechMaster"
        [Observer.mk 0 "alice@example.com", Observer.mk 1 "bob_dev",
         Observer.mk 2 "+7-777-123-4567"] "").subscribers).map Observer.id).Nodup) ∧
    ((detach (YouTubeChannel.mk "TechMaster"
        [Observer.mk 0 "alice@example.com", Observer.mk 1 "bob_dev",
         Observer.mk 2 "+7-777-123-4567"] "")
        (Observer.mk 1 "bob_dev")).fst.subscribers.length + 1 =
      (YouTubeChannel.mk "TechMaster"
        [Observer.mk 0 "alice@example.com", Observer.mk 1 "bob_dev",
         Observer.mk 2 "+7-777-123-4567"] "").subscribers.length ∧
    (detach (YouTubeChannel.mk "TechMaster"
        [Observer.mk 0 "alice@example.com", Observer.mk 1 "bob_dev",
         Observer.mk 2 "+7-777-123-4567"] "")
        (Observer.mk 1 "bob_dev")).fst.subscribers =
      ((YouTubeChannel.mk "TechMaster"
        [Observer.mk 0 "alice@example.com", Observer.mk 1 "bob_dev",
         Observer.mk 2 "+7-777-123-4567"] "").subscribers).filter
        (fun s => ! (s.id == (Observer.mk 1 "bob_dev").id)) ∧
    invocations (upload_video (detach (YouTubeChannel.mk "TechMaster"
        [Observer.mk 0 "alice@example.com", Observer.mk 1 "bob_dev",
         Observer.mk 2 "+7-777-123-4567"] "")
        (Observer.mk 1 "bob_dev")).fst "Advanced Observer Pattern Explained").snd =
      ((detach (YouTubeChannel.mk "TechMaster"
        [Observer.mk 0 "alice@example.com", Observer.mk 1 "bob_dev",
         Observer.mk 2 "+7-777-123-4567"] "")
        (Observer.mk 1 "bob_dev")).fst.subscribers).map
        (fun s => ((s.id : Nat), "Advanced Observer Pattern Explained", "TechMaster"))) :=
  ⟨by decide, by decide,
   detach_decrements_and_preserves_order _ (Observer.mk 1 "bob_dev")
     "Advanced Observer Pattern Explained" (by decide) (by decide)⟩

end ObserverPattern
